import Mathlib

/-!
Shallow embedding of the secure file-access subsystem of
`src/lib/secure-access.ts` (snapvault).  JavaScript numbers are modelled as
`Int` (all values involved are integral millisecond/second timestamps and
counters), optional values as `Option`, and thrown/caught exceptions as
`Except`.  The external cryptographic primitives (HMAC-signed JWTs via
`jsonwebtoken`, SHA-256 via `crypto`) are modelled symbolically as ideal,
collision-free operations: a digest is a tagged copy of its preimage and a
signed token is the pair of the signing secret and the payload, so that
signature/digest equality holds exactly when the underlying inputs agree.
The storage layer (`database`) and session verification (`verifySession`)
are modelled as an explicit environment of total functions.
-/

namespace SnapVault

/-- Constant `DEFAULT_URL_EXPIRY = 15 * 60` seconds (15 minutes). -/
def DEFAULT_URL_EXPIRY : Int := 15 * 60

/-- Constant `MAX_URL_EXPIRY = 24 * 60 * 60` seconds (24 hours). -/
def MAX_URL_EXPIRY : Int := 24 * 60 * 60

/-- JavaScript truthiness of an optional string: `undefined` and the empty
string are falsy.  Used wherever the source tests a string with `if (s)`
or `s && ...`. -/
def jsStr (o : Option String) : Option String :=
  o.bind (fun s => if s = "" then none else some s)

/-- Symbolic SHA-256 digest: `crypto.createHash('sha256').update(s).digest('hex')`
is modelled as an ideal collision-free one-way function, represented by a
tagged copy of the preimage (digests are compared only for equality). -/
structure Digest where
  preimage : String
deriving DecidableEq, Repr

/-- Symbolic hash function (see `Digest`). -/
def sha256hex (s : String) : Digest := ⟨s⟩

/-- The JWT payload built by `generateSignedUrl`:
`{ fileId, userId, action, exp, iat, ip?, ua? }` where `ip`/`ua` are
SHA-256 digests of the bound IP address / user agent. -/
structure SignedPayload where
  fileId : String
  userId : String
  action : String
  exp : Int
  iat : Int
  ip : Option Digest
  ua : Option Digest
deriving DecidableEq, Repr

/-- Symbolic HMAC-signed JWT (`jwt.sign(payload, secret)`): the token is
the pair of signing secret and payload, so signature verification against
a secret succeeds exactly when the token was signed with that secret. -/
structure SignedToken where
  secret : String
  payload : SignedPayload
deriving DecidableEq, Repr

/-- The `jwt.sign(payload, SIGNED_URL_SECRET, { algorithm: 'HS256' })` call. -/
def jwtSign (payload : SignedPayload) (secret : String) : SignedToken :=
  ⟨secret, payload⟩

/-- Outcomes of `jwt.verify` that the source distinguishes in its catch
block: `JsonWebTokenError` (bad signature / corrupt token) and
`TokenExpiredError`. -/
inductive JwtError where
  | invalid
  | expired
deriving DecidableEq, Repr

/-- The `jwt.verify(token, secret)` call of the `jsonwebtoken` library:
checks the signature first, then rejects the token as expired when the
current clock (in seconds) has reached `exp`. -/
def jwtVerify (token : SignedToken) (secret : String) (now : Int) :
    Except JwtError SignedPayload :=
  if token.secret ≠ secret then .error .invalid
  else if token.payload.exp ≤ now then .error .expired
  else .ok token.payload

/-- Options record of `generateSignedUrl` (`SignedUrlOptions`); optional
fields are `Option` and TS destructuring defaults apply only to absent
(`undefined`) fields. -/
structure SignedUrlOptions where
  fileId : String
  userId : String
  expiresIn : Option Int
  action : Option String
  ipAddress : Option String
  userAgent : Option String
deriving DecidableEq, Repr

/-- Result of `generateSignedUrl`: the source returns the string
`/api/files/secure/fileId?token=...&action=...`; its three variable parts
are kept structured. -/
structure SignedUrl where
  urlFileId : String
  token : SignedToken
  urlAction : String
deriving DecidableEq, Repr

/-- Embedding of `generateSignedUrl` (src/lib/secure-access.ts, lines
42-69).  `now` is `Math.floor(Date.now() / 1000)` (the source samples the
clock twice for `exp` and `iat`; within one second both reads coincide,
modelled as a single instant).  Destructuring defaults: `expiresIn`
defaults to `DEFAULT_URL_EXPIRY` and `action` to `'download'` only when
absent.  The IP/user-agent digests are included only when the raw value is
truthy (`ipAddress && {...}`). -/
def generateSignedUrl (options : SignedUrlOptions) (now : Int)
    (secret : String) : SignedUrl :=
  let expiresIn := options.expiresIn.getD DEFAULT_URL_EXPIRY
  let action := options.action.getD "download"
  let actualExpiry := min expiresIn MAX_URL_EXPIRY
  let expiresAt := now + actualExpiry
  let payload : SignedPayload :=
    { fileId := options.fileId
      userId := options.userId
      action := action
      exp := expiresAt
      iat := now
      ip := (jsStr options.ipAddress).map sha256hex
      ua := (jsStr options.userAgent).map sha256hex }
  ⟨options.fileId, jwtSign payload secret, action⟩

/-- Result record of `verifySignedUrl`: `{ valid, payload?, error? }`. -/
structure VerifyResult where
  valid : Bool
  payload : Option SignedPayload
  error : Option String
deriving DecidableEq, Repr

/-- Guard of the source's IP-binding check: the comparison inside
`if (decoded.ip && ipAddress) ...` fails exactly when the decoded payload
carries an IP digest, a truthy current IP is supplied, and the digest of
the current IP differs. -/
def ipBindingFails (decodedIp : Option Digest) (ipAddress : Option String) :
    Bool :=
  match decodedIp, jsStr ipAddress with
  | some d, some current => d ≠ sha256hex current
  | _, _ => false

/-- Embedding of `verifySignedUrl` (src/lib/secure-access.ts, lines
74-125).  The try block runs `jwt.verify` (signature, then expiry: the
catch block maps `JsonWebTokenError` to `'Invalid signed URL'` and
`TokenExpiredError` to `'Signed URL has expired'`), then checks fileId,
action, and the optional IP / user-agent bindings in order, returning on
the first failure.  A binding is enforced only when the decoded payload
carries the digest and a truthy current value is supplied. -/
def verifySignedUrl (fileId : String) (token : SignedToken) (action : String)
    (ipAddress userAgent : Option String) (now : Int) (secret : String) :
    VerifyResult :=
  match jwtVerify token secret now with
  | .error .invalid => ⟨false, none, some "Invalid signed URL"⟩
  | .error .expired => ⟨false, none, some "Signed URL has expired"⟩
  | .ok decoded =>
    if decoded.fileId ≠ fileId then
      ⟨false, none, some "File ID mismatch"⟩
    else if decoded.action ≠ action then
      ⟨false, none, some "Action mismatch"⟩
    else if ipBindingFails decoded.ip ipAddress then
      ⟨false, none, some "IP address mismatch"⟩
    else if ipBindingFails decoded.ua userAgent then
      ⟨false, none, some "User agent mismatch"⟩
    else ⟨true, some decoded, none⟩

/-- File row as read by the core (`database.getFileById`): the fields
`user_id` (owner), `is_public`, `expires_at` (file-level expiry instant,
optional) and `access_token` (the legacy long-lived token rotated by
`revokeFileAccess`) are the ones this subsystem consumes. -/
structure FileRecord where
  id : String
  user_id : String
  is_public : Bool
  expires_at : Option Int
  access_token : String
deriving DecidableEq, Repr

/-- Caller identity resolved by `verifySession`; only `id` is consumed. -/
structure User where
  id : String
deriving DecidableEq, Repr

/-- Data of one access-log entry as handed to `logFileAccess` (the
`id` and `created_at` fields added inside `logFileAccess` are generated
there and not decision-relevant). -/
structure LogEntryData where
  file_id : String
  user_id : Option String
  ip_address : Option String
  user_agent : Option String
  action : String
  success : Bool
  error_message : Option String
deriving DecidableEq, Repr

/-- Result record `SecureFileAccess` of `checkFileAccess`:
`{ canAccess, reason?, requiresAuth?, isOwner? }` (the `accessLog?` field
of the interface is never populated by the source). -/
structure SecureFileAccess where
  canAccess : Bool
  reason : Option String
  requiresAuth : Option Bool
  isOwner : Option Bool
deriving DecidableEq, Repr

/-- Environment of external collaborators: the storage read
`database.getFileById` and the identity resolution `verifySession`,
modelled as total functions (the spec's storage/identity collaborators). -/
structure Env where
  getFileById : String → Option FileRecord
  verifySessionFn : String → Option User

/-- Embedding of `logFileAccess` (src/lib/secure-access.ts, lines
389-402): attempts the storage write `database.createFileAccessLog` and
catches any failure, returning normally in either case (the source's
comment: logging failure must not break file access).  The storage write
is a parameter that may fail. -/
def logFileAccess (store : LogEntryData → Except String Unit)
    (entry : LogEntryData) : Except String Unit :=
  match store entry with
  | .ok _ => .ok ()
  | .error _ => .ok ()

/-- File-level expiry test of `checkFileAccess`: a file has expired when
`expires_at` is present (truthy) and lies strictly before `now`
(`new Date(file.expires_at) < new Date()`). -/
def fileExpired (expires_at : Option Int) (now : Int) : Bool :=
  match expires_at with
  | some e => decide (e < now)
  | none => false

/-- Embedding of `checkFileAccess` (src/lib/secure-access.ts, lines
130-252).  Returns the access decision together with the list of log
entries the function hands to `logFileAccess` (each branch of the source
contains at most one such call; the write itself may fail and is swallowed
by `logFileAccess`, see `logFileAccess`).  The source's outer catch
handles rejections of the storage/session collaborators, which are total
in this model, so that branch is unreachable here.  A session token that
is absent or empty is falsy (`if (!sessionToken)`). -/
def checkFileAccess (env : Env) (fileId : String)
    (sessionToken ipAddress userAgent : Option String) (now : Int) :
    SecureFileAccess × List LogEntryData :=
  match env.getFileById fileId with
  | none => (⟨false, some "File not found", none, none⟩, [])
  | some file =>
    if fileExpired file.expires_at now then
      (⟨false, some "File has expired", none, none⟩, [])
    else if file.is_public then
      (⟨true, none, none, some false⟩,
        [⟨fileId, none, ipAddress, userAgent, "access_check", true, none⟩])
    else
      match jsStr sessionToken with
      | none =>
        (⟨false, some "Authentication required for private file",
          some true, none⟩, [])
      | some tok =>
        match env.verifySessionFn tok with
        | none =>
          (⟨false, some "Invalid or expired session", some true, none⟩,
            [⟨fileId, none, ipAddress, userAgent, "access_check", false,
              some "Invalid session"⟩])
        | some user =>
          if file.user_id = user.id then
            (⟨true, none, none, some true⟩,
              [⟨fileId, some user.id, ipAddress, userAgent, "access_check",
                true, none⟩])
          else
            (⟨false,
              some "Access denied - you are not the owner of this file",
              none, none⟩,
              [⟨fileId, some user.id, ipAddress, userAgent, "access_check",
                false, some "Access denied - not file owner"⟩])

/-- Options record of `generateSecureDownloadUrl`. -/
structure DownloadUrlOptions where
  expiresIn : Option Int
  action : Option String
  ipAddress : Option String
  userAgent : Option String
deriving DecidableEq, Repr

/-- Result record of `generateSecureDownloadUrl`: `{ success, url?, error? }`. -/
structure SecureUrlResult where
  success : Bool
  url : Option SignedUrl
  error : Option String
deriving DecidableEq, Repr

/-- Embedding of `generateSecureDownloadUrl` (src/lib/secure-access.ts,
lines 257-328): runs `checkFileAccess`; on denial returns the denial
reason (`accessCheck.reason || 'Access denied'`) and mints nothing; then
resolves the caller with `verifySession` and returns `'Invalid session'`
without minting when no user resolves; otherwise mints the signed URL via
`generateSignedUrl` with the resolved user's id and records a
`generate_<action>_url` log entry.  The emitted log entries (those of the
inner `checkFileAccess` plus the issuance entry) are returned alongside. -/
def generateSecureDownloadUrl (env : Env) (fileId sessionToken : String)
    (options : DownloadUrlOptions) (now : Int) (secret : String) :
    SecureUrlResult × List LogEntryData :=
  let checked := checkFileAccess env fileId (some sessionToken)
    options.ipAddress options.userAgent now
  if checked.1.canAccess = false then
    (⟨false, none, some ((jsStr checked.1.reason).getD "Access denied")⟩,
      checked.2)
  else
    match env.verifySessionFn sessionToken with
    | none => (⟨false, none, some "Invalid session"⟩, checked.2)
    | some user =>
      let signedUrl := generateSignedUrl
        ⟨fileId, user.id, options.expiresIn, options.action,
          options.ipAddress, options.userAgent⟩ now secret
      (⟨true, some signedUrl, none⟩,
        checked.2 ++
          [⟨fileId, some user.id, options.ipAddress, options.userAgent,
            "generate_" ++ options.action.getD "download" ++ "_url",
            true, none⟩])

/-- Result record of `revokeFileAccess`: `{ success, newAccessToken?, error? }`. -/
structure RevokeResult where
  success : Bool
  newAccessToken : Option String
  error : Option String
deriving DecidableEq, Repr

/-- Embedding of `revokeFileAccess` (src/lib/secure-access.ts, lines
333-384): re-verifies ownership and, for the owner, rotates the file's
long-lived access token to `freshToken` — the outcome of
`crypto.randomBytes(32).toString('hex')`, modelled as an input drawn by
the caller's random oracle.  The middle component lists the
`database.updateFileAccessToken` writes issued (at most one); the last
component lists the emitted log entries. -/
def revokeFileAccess (env : Env) (fileId userId : String)
    (freshToken : String) :
    RevokeResult × List (String × String) × List LogEntryData :=
  match env.getFileById fileId with
  | none => (⟨false, none, some "File not found"⟩, [], [])
  | some file =>
    if file.user_id ≠ userId then
      (⟨false, none,
        some "Access denied - you are not the owner of this file"⟩, [], [])
    else
      (⟨true, some freshToken, none⟩, [(fileId, freshToken)],
        [⟨fileId, some userId, none, none, "revoke_access", true, none⟩])

/-- Result record of `detectSuspiciousActivity`. -/
structure SuspicionReport where
  isSuspicious : Bool
  reasons : List String
  accessCount : Nat
  uniqueIPs : Nat
deriving DecidableEq, Repr

/-- Embedding of `detectSuspiciousActivity` (src/lib/secure-access.ts,
lines 424-484).  `fetched` is the outcome of the storage read
`database.getFileAccessLogsSince(fileId, since)` (the rows of the file in
the window); when it fails, the catch block returns the non-suspicious
fallback.  A row's IP is collected into the distinct-IP set when truthy
(present and non-empty).  The failure-rate guard
`failedAttempts / logs.length > 0.5 && logs.length > 10` is exact here and
for all realistic sizes in IEEE floats
(`2 * failedAttempts > logs.length`); the rounded percentage in the
message is `Math.round(rate * 100) = floor(rate * 100 + 1/2)`. -/
def detectSuspiciousActivity (fetched : Except String (List LogEntryData))
    (timeWindowHours : Int) : SuspicionReport :=
  match fetched with
  | .error _ => ⟨false, [], 0, 0⟩
  | .ok logs =>
    let ipCount := (logs.filterMap (fun l => jsStr l.ip_address)).dedup.length
    let failedAttempts := (logs.filter (fun l => l.success = false)).length
    let count := logs.length
    let reasons : List String :=
      (if count > 100 then
        ["High access volume: " ++ toString count ++ " requests in " ++
          toString timeWindowHours ++ "h"] else []) ++
      (if ipCount > 20 then
        ["Many unique IPs: " ++ toString ipCount ++ " different addresses"]
       else []) ++
      (if failedAttempts > 20 then
        ["Many failed attempts: " ++ toString failedAttempts ++ " failures"]
       else []) ++
      (if 2 * failedAttempts > count ∧ count > 10 then
        ["High failure rate: " ++
          toString ((200 * failedAttempts + count) / (2 * count)) ++ "%"]
       else [])
    ⟨decide (0 < reasons.length), reasons, count, ipCount⟩

/-- Entry of the process-wide `accessAttempts` map: `{ count, resetTime }`. -/
structure RateEntry where
  count : Int
  resetTime : Int
deriving DecidableEq, Repr

/-- Result record of `checkRateLimit`: `{ allowed, remaining, resetTime }`. -/
structure RateLimitResult where
  allowed : Bool
  remaining : Int
  resetTime : Int
deriving DecidableEq, Repr

/-- Embedding of `checkRateLimit` (src/lib/secure-access.ts, lines
491-532) for one identifier: `current` is the identifier's entry in the
`accessAttempts` map (`none` on first call); the second component of the
result is the entry after the call (the map is keyed per identifier, so
one entry captures the whole state the call touches).  A fresh window is
installed when no entry exists or `now > resetTime`; a call at the cap
(`count >= maxAttempts`) denies without incrementing; otherwise the count
is incremented and the call allowed. -/
def checkRateLimit (current : Option RateEntry) (now : Int)
    (maxAttempts windowMinutes : Int) : RateLimitResult × RateEntry :=
  let windowMs := windowMinutes * 60 * 1000
  let fresh : RateLimitResult × RateEntry :=
    (⟨true, maxAttempts - 1, now + windowMs⟩, ⟨1, now + windowMs⟩)
  match current with
  | none => fresh
  | some c =>
    if c.resetTime < now then fresh
    else if maxAttempts ≤ c.count then (⟨false, 0, c.resetTime⟩, c)
    else
      (⟨true, maxAttempts - (c.count + 1), c.resetTime⟩,
        ⟨c.count + 1, c.resetTime⟩)

/-- Environment whose storage holds no files. -/
def envEmpty : Env := ⟨fun _ => none, fun _ => none⟩

/-- A public, never-expiring file owned by `"owner"`. -/
def pubFile : FileRecord := ⟨"f", "owner", true, none, "tok0"⟩

/-- Environment holding `pubFile` and resolving no session. -/
def envPub : Env := ⟨fun _ => some pubFile, fun _ => none⟩

/-- A private, never-expiring file owned by `"owner"`. -/
def privFile : FileRecord := ⟨"f", "owner", false, none, "tok0"⟩

/-- Environment holding `privFile` and resolving every session to the
owner. -/
def envPriv : Env := ⟨fun _ => some privFile, fun _ => some ⟨"owner"⟩⟩

/-- Round-trip lemma for the binding guard: a digest minted from the same
optional raw value never fails its own check. -/
theorem ipBindingFails_self (x : Option String) :
    ipBindingFails ((jsStr x).map sha256hex) x = false := by
  cases h : jsStr x <;> simp [ipBindingFails, h]

/-- C1: for every file record and optional caller session,
`checkFileAccess` decides access as the spec's state machine: a missing
file is denied; a file whose expiry lies in the past is denied; an
unexpired public file is allowed with `isOwner = false` regardless of
session token presence or validity; an unexpired private file is denied
with `requiresAuth = true` when no session token is supplied or the token
does not resolve to a valid user, denied without `requiresAuth` when the
resolved user is not the owner, and allowed with `isOwner = true` for the
owner. -/
theorem C1_checkFileAccess_state_machine (env : Env) (fileId : String)
    (sessionToken ipAddress userAgent : Option String) (now : Int) :
    (env.getFileById fileId = none →
      (checkFileAccess env fileId sessionToken ipAddress userAgent now).1
        = ⟨false, some "File not found", none, none⟩)
    ∧ (∀ f, env.getFileById fileId = some f →
        fileExpired f.expires_at now = true →
        (checkFileAccess env fileId sessionToken ipAddress userAgent now).1
          = ⟨false, some "File has expired", none, none⟩)
    ∧ (∀ f, env.getFileById fileId = some f →
        fileExpired f.expires_at now = false → f.is_public = true →
        (checkFileAccess env fileId sessionToken ipAddress userAgent now).1
          = ⟨true, none, none, some false⟩)
    ∧ (∀ f, env.getFileById fileId = some f →
        fileExpired f.expires_at now = false → f.is_public = false →
        jsStr sessionToken = none →
        (checkFileAccess env fileId sessionToken ipAddress userAgent now).1
          = ⟨false, some "Authentication required for private file",
              some true, none⟩)
    ∧ (∀ f tok, env.getFileById fileId = some f →
        fileExpired f.expires_at now = false → f.is_public = false →
        jsStr sessionToken = some tok → env.verifySessionFn tok = none →
        (checkFileAccess env fileId sessionToken ipAddress userAgent now).1
          = ⟨false, some "Invalid or expired session", some true, none⟩)
    ∧ (∀ f tok user, env.getFileById fileId = some f →
        fileExpired f.expires_at now = false → f.is_public = false →
        jsStr sessionToken = some tok → env.verifySessionFn tok = some user →
        f.user_id ≠ user.id →
        (checkFileAccess env fileId sessionToken ipAddress userAgent now).1
          = ⟨false,
              some "Access denied - you are not the owner of this file",
              none, none⟩)
    ∧ (∀ f tok user, env.getFileById fileId = some f →
        fileExpired f.expires_at now = false → f.is_public = false →
        jsStr sessionToken = some tok → env.verifySessionFn tok = some user →
        f.user_id = user.id →
        (checkFileAccess env fileId sessionToken ipAddress userAgent now).1
          = ⟨true, none, none, some true⟩) := by
  refine ⟨?_, ?_, ?_, ?_, ?_, ?_, ?_⟩
  · intro h
    simp [checkFileAccess, h]
  · intro f hf hx
    simp [checkFileAccess, hf, hx]
  · intro f hf hx hp
    simp [checkFileAccess, hf, hx, hp]
  · intro f hf hx hp hs
    simp [checkFileAccess, hf, hx, hp, hs]
  · intro f tok hf hx hp hs hv
    simp [checkFileAccess, hf, hx, hp, hs, hv]
  · intro f tok user hf hx hp hs hv hne
    simp [checkFileAccess, hf, hx, hp, hs, hv, hne]
  · intro f tok user hf hx hp hs hv he
    simp [checkFileAccess, hf, hx, hp, hs, hv, he]

/-- Witness for C1: the owner of the private file `privFile` is allowed
with `isOwner = true`. -/
theorem C1_checkFileAccess_state_machine_witness :
    (checkFileAccess envPriv "f" (some "s") none none 0).1
      = ⟨true, none, none, some true⟩ :=
  (C1_checkFileAccess_state_machine envPriv "f" (some "s") none none
    0).2.2.2.2.2.2 privFile "s" ⟨"owner"⟩ rfl rfl rfl (by decide) rfl rfl

/-- C2: `verifySignedUrl` checks a presented token in the fixed order
signature, expiry, fileId, action, IP binding, user-agent binding,
short-circuiting on the first failure with a distinct error message per
failure class; a binding is enforced only when both the claim carries the
fingerprint and a truthy current value is supplied; on success the decoded
claim is returned. -/
theorem C2_verifySignedUrl_check_order (fileId : String)
    (token : SignedToken) (action : String)
    (ipAddress userAgent : Option String) (now : Int) (secret : String) :
    (token.secret ≠ secret →
      verifySignedUrl fileId token action ipAddress userAgent now secret
        = ⟨false, none, some "Invalid signed URL"⟩)
    ∧ (token.secret = secret → token.payload.exp ≤ now →
      verifySignedUrl fileId token action ipAddress userAgent now secret
        = ⟨false, none, some "Signed URL has expired"⟩)
    ∧ (token.secret = secret → now < token.payload.exp →
        token.payload.fileId ≠ fileId →
      verifySignedUrl fileId token action ipAddress userAgent now secret
        = ⟨false, none, some "File ID mismatch"⟩)
    ∧ (token.secret = secret → now < token.payload.exp →
        token.payload.fileId = fileId → token.payload.action ≠ action →
      verifySignedUrl fileId token action ipAddress userAgent now secret
        = ⟨false, none, some "Action mismatch"⟩)
    ∧ (token.secret = secret → now < token.payload.exp →
        token.payload.fileId = fileId → token.payload.action = action →
        ipBindingFails token.payload.ip ipAddress = true →
      verifySignedUrl fileId token action ipAddress userAgent now secret
        = ⟨false, none, some "IP address mismatch"⟩)
    ∧ (token.secret = secret → now < token.payload.exp →
        token.payload.fileId = fileId → token.payload.action = action →
        ipBindingFails token.payload.ip ipAddress = false →
        ipBindingFails token.payload.ua userAgent = true →
      verifySignedUrl fileId token action ipAddress userAgent now secret
        = ⟨false, none, some "User agent mismatch"⟩)
    ∧ (token.secret = secret → now < token.payload.exp →
        token.payload.fileId = fileId → token.payload.action = action →
        ipBindingFails token.payload.ip ipAddress = false →
        ipBindingFails token.payload.ua userAgent = false →
      verifySignedUrl fileId token action ipAddress userAgent now secret
        = ⟨true, some token.payload, none⟩)
    ∧ (∀ d : Option Digest, ∀ cur : Option String,
        d = none ∨ jsStr cur = none → ipBindingFails d cur = false)
    ∧ (∀ dg : Digest, ∀ cur : Option String, ∀ s : String,
        jsStr cur = some s →
        (ipBindingFails (some dg) cur = true ↔ dg ≠ sha256hex s))
    ∧ List.Nodup ["Invalid signed URL", "Signed URL has expired",
        "File ID mismatch", "Action mismatch", "IP address mismatch",
        "User agent mismatch"] := by
  refine ⟨?_, ?_, ?_, ?_, ?_, ?_, ?_, ?_, ?_, by decide⟩
  · intro h
    simp [verifySignedUrl, jwtVerify, h]
  · intro h hx
    simp [verifySignedUrl, jwtVerify, h, hx]
  · intro h hx hfid
    have hx' : ¬ (token.payload.exp ≤ now) := by omega
    simp [verifySignedUrl, jwtVerify, h, hx', hfid]
  · intro h hx hfid hact
    have hx' : ¬ (token.payload.exp ≤ now) := by omega
    simp [verifySignedUrl, jwtVerify, h, hx', hfid, hact]
  · intro h hx hfid hact hip
    have hx' : ¬ (token.payload.exp ≤ now) := by omega
    simp [verifySignedUrl, jwtVerify, h, hx', hfid, hact, hip]
  · intro h hx hfid hact hip hua
    have hx' : ¬ (token.payload.exp ≤ now) := by omega
    simp [verifySignedUrl, jwtVerify, h, hx', hfid, hact, hip, hua]
  · intro h hx hfid hact hip hua
    have hx' : ¬ (token.payload.exp ≤ now) := by omega
    simp [verifySignedUrl, jwtVerify, h, hx', hfid, hact, hip, hua]
  · intro d cur hd
    rcases hd with hd | hd
    · simp [ipBindingFails, hd]
    · cases d <;> simp [ipBindingFails, hd]
  · intro dg cur s hs
    simp [ipBindingFails, hs]

/-- Witness for C2: a token signed with the wrong secret is rejected as an
invalid signed URL. -/
theorem C2_verifySignedUrl_check_order_witness :
    verifySignedUrl "f"
        (generateSignedUrl ⟨"f", "u", none, none, none, none⟩ 0 "other").token
        "download" none none 0 "s"
      = ⟨false, none, some "Invalid signed URL"⟩ :=
  (C2_verifySignedUrl_check_order "f"
    (generateSignedUrl ⟨"f", "u", none, none, none, none⟩ 0 "other").token
    "download" none none 0 "s").1 (by decide)

/-- C3: verifying a freshly minted token before its expiry, against the
same secret, fileId, action and the same optional IP / user-agent values
it was bound to, succeeds and returns the minted claim, whose fields are
the originals of the issuance request. -/
theorem C3_mint_verify_roundtrip (options : SignedUrlOptions)
    (now now' : Int) (secret : String)
    (h : now' < (generateSignedUrl options now secret).token.payload.exp) :
    verifySignedUrl options.fileId
        (generateSignedUrl options now secret).token
        (options.action.getD "download") options.ipAddress options.userAgent
        now' secret
      = ⟨true, some (generateSignedUrl options now secret).token.payload,
          none⟩
    ∧ (generateSignedUrl options now secret).token.payload.fileId
        = options.fileId
    ∧ (generateSignedUrl options now secret).token.payload.userId
        = options.userId
    ∧ (generateSignedUrl options now secret).token.payload.action
        = options.action.getD "download"
    ∧ (generateSignedUrl options now secret).token.payload.iat = now := by
  have hx : ¬ ((generateSignedUrl options now secret).token.payload.exp
      ≤ now') := by omega
  refine ⟨?_, rfl, rfl, rfl, rfl⟩
  simp only [generateSignedUrl, jwtSign] at hx ⊢
  simp [verifySignedUrl, jwtVerify, hx, ipBindingFails_self]

/-- Witness for C3: a token bound to an IP and a user agent, verified with
the same values before expiry, round-trips. -/
theorem C3_mint_verify_roundtrip_witness :
    verifySignedUrl "f"
        (generateSignedUrl ⟨"f", "u", none, none, some "ip", some "ua"⟩
          100 "s").token
        "download" (some "ip") (some "ua") 500 "s"
      = ⟨true,
          some (generateSignedUrl ⟨"f", "u", none, none, some "ip", some "ua"⟩
            100 "s").token.payload, none⟩ :=
  (C3_mint_verify_roundtrip ⟨"f", "u", none, none, some "ip", some "ua"⟩
    100 500 "s" (by decide)).1

/-- Counterexample for C4: the claim asserts that a requested lifetime of
0 (≤ 0) is replaced by the 15-minute default, which would make the minted
expiry equal `issuedAt + DEFAULT_URL_EXPIRY`; the code instead uses the 0
as-is, so the minted token expires at its own issuance instant. -/
theorem C4_default_counterexample :
    (generateSignedUrl ⟨"f", "u", some 0, none, none, none⟩ 0
        "s").token.payload.exp
      ≠ (generateSignedUrl ⟨"f", "u", some 0, none, none, none⟩ 0
          "s").token.payload.iat + DEFAULT_URL_EXPIRY := by decide

/-- C4 (amended): `generateSignedUrl` sets `issuedAt` to the current time
and `expiresAt` to `issuedAt + min(requestedLifetime, 24h)`, where the
15-minute default lifetime is substituted only when no lifetime is
requested at all — a requested lifetime ≤ 0 is used as-is (yielding an
already-expired token); every minted claim satisfies
`expiresAt − issuedAt ≤ 24h`. -/
theorem C4_expiry_clamped (options : SignedUrlOptions) (now : Int)
    (secret : String) :
    (generateSignedUrl options now secret).token.payload.iat = now
    ∧ (generateSignedUrl options now secret).token.payload.exp
        = now + min (options.expiresIn.getD DEFAULT_URL_EXPIRY)
            MAX_URL_EXPIRY
    ∧ (options.expiresIn = none →
        (generateSignedUrl options now secret).token.payload.exp
          = now + DEFAULT_URL_EXPIRY)
    ∧ (∀ d, options.expiresIn = some d →
        (generateSignedUrl options now secret).token.payload.exp
          = now + min d MAX_URL_EXPIRY)
    ∧ (generateSignedUrl options now secret).token.payload.exp
        - (generateSignedUrl options now secret).token.payload.iat
        ≤ MAX_URL_EXPIRY := by
  refine ⟨rfl, rfl, ?_, ?_, ?_⟩
  · intro h
    simp [generateSignedUrl, jwtSign, h, DEFAULT_URL_EXPIRY, MAX_URL_EXPIRY]
  · intro d h
    simp [generateSignedUrl, jwtSign, h]
  · have hm : min (options.expiresIn.getD DEFAULT_URL_EXPIRY) MAX_URL_EXPIRY
        ≤ MAX_URL_EXPIRY :=
      min_le_right _ _
    simp only [generateSignedUrl, jwtSign]
    omega

/-- Witness for C4: a request with no lifetime gets the 15-minute default
and a request for 48 hours is clamped to 24 hours. -/
theorem C4_expiry_clamped_witness :
    (generateSignedUrl ⟨"f", "u", none, none, none, none⟩ 50
        "s").token.payload.exp = 50 + DEFAULT_URL_EXPIRY
    ∧ (generateSignedUrl ⟨"f", "u", some (48 * 60 * 60), none, none, none⟩
        50 "s").token.payload.exp = 50 + min (48 * 60 * 60) MAX_URL_EXPIRY :=
  ⟨(C4_expiry_clamped ⟨"f", "u", none, none, none, none⟩ 50 "s").2.2.1 rfl,
   (C4_expiry_clamped ⟨"f", "u", some (48 * 60 * 60), none, none, none⟩
     50 "s").2.2.2.1 (48 * 60 * 60) rfl⟩

/-- Counterexample for C5: the claim asserts that every branch of
`checkFileAccess` emits exactly one log entry, but the file-not-found
denial emits none. -/
theorem C5_missing_log_counterexample :
    (checkFileAccess envEmpty "f" none none none 0).2.length ≠ 1 := by
  decide

/-- C5 (amended): `checkFileAccess` emits exactly one `AccessLogEntry` in
its public-allow, invalid-session-deny, not-owner-deny and owner-allow
branches — with the entry's `success` matching the decision and an
`error_message` on the logged denials — and emits none in the
file-not-found, file-expired and missing-session-token denial branches; a
failure of the log write is caught and swallowed by `logFileAccess`, which
always returns normally, so it never aborts or alters the triggering
access decision. -/
theorem C5_logging_branches (env : Env) (fileId : String)
    (sessionToken ipAddress userAgent : Option String) (now : Int) :
    ((checkFileAccess env fileId sessionToken ipAddress userAgent now).2.length
      = if (checkFileAccess env fileId sessionToken ipAddress userAgent
              now).1.reason = some "File not found"
          ∨ (checkFileAccess env fileId sessionToken ipAddress userAgent
              now).1.reason = some "File has expired"
          ∨ (checkFileAccess env fileId sessionToken ipAddress userAgent
              now).1.reason
              = some "Authentication required for private file"
        then 0 else 1)
    ∧ (∀ e ∈ (checkFileAccess env fileId sessionToken ipAddress userAgent
          now).2,
        e.success = (checkFileAccess env fileId sessionToken ipAddress
          userAgent now).1.canAccess)
    ∧ (∀ e ∈ (checkFileAccess env fileId sessionToken ipAddress userAgent
          now).2,
        e.success = false → e.error_message ≠ none)
    ∧ (∀ (store : LogEntryData → Except String Unit) (entry : LogEntryData),
        logFileAccess store entry = Except.ok ()) := by
  have hswallow : ∀ (store : LogEntryData → Except String Unit)
      (entry : LogEntryData), logFileAccess store entry = Except.ok () := by
    intro store entry
    unfold logFileAccess
    cases store entry <;> rfl
  refine ⟨?_, ?_, ?_, hswallow⟩ <;>
  · rcases h : env.getFileById fileId with _ | f
    · simp +decide [checkFileAccess, h]
    · cases hx : fileExpired f.expires_at now
      · cases hp : f.is_public
        · rcases hs : jsStr sessionToken with _ | tok
          · simp +decide [checkFileAccess, h, hx, hp, hs]
          · rcases hv : env.verifySessionFn tok with _ | user
            · simp +decide [checkFileAccess, h, hx, hp, hs, hv]
            · by_cases he : f.user_id = user.id
              · simp +decide [checkFileAccess, h, hx, hp, hs, hv, he]
              · simp +decide [checkFileAccess, h, hx, hp, hs, hv, he]
        · simp +decide [checkFileAccess, h, hx, hp]
      · simp +decide [checkFileAccess, h, hx]

/-- Witness for C5: the public-allow branch of `envPub` emits exactly one
log entry, and a failing log write is swallowed by `logFileAccess`. -/
theorem C5_logging_branches_witness :
    (checkFileAccess envPub "f" none none none 0).2.length = 1
    ∧ logFileAccess (fun _ => Except.error "database down")
        ⟨"f", none, none, none, "access_check", true, none⟩
        = Except.ok () := by
  have h := C5_logging_branches envPub "f" none none none 0
  refine ⟨?_, h.2.2.2 (fun _ => Except.error "database down")
    ⟨"f", none, none, none, "access_check", true, none⟩⟩
  have h1 := h.1
  simpa using h1

/-- Counterexample for C6: for a public file and a session token that
resolves to no user, `checkFileAccess` allows access, yet
`generateSecureDownloadUrl` returns failure `'Invalid session'` and mints
nothing — the claim says it mints the capability with the subject omitted. -/
theorem C6_public_no_identity_counterexample :
    (checkFileAccess envPub "f" (some "tok") none none 0).1.canAccess = true
    ∧ (generateSecureDownloadUrl envPub "f" "tok" ⟨none, none, none, none⟩
        0 "s").1 = ⟨false, none, some "Invalid session"⟩ := by decide

/-- C6 (amended): `generateSecureDownloadUrl` first runs `checkFileAccess`
and, when access is denied, returns the denial reason without minting any
token; when access is allowed it mints the signed capability only if the
session token resolves to a user (whose id becomes the claim's subject)
and returns the signed URL — when access was allowed without a resolvable
identity (a public file), it returns failure `'Invalid session'` and mints
nothing. -/
theorem C6_orchestration (env : Env) (fileId sessionToken : String)
    (options : DownloadUrlOptions) (now : Int) (secret : String) :
    ((checkFileAccess env fileId (some sessionToken) options.ipAddress
        options.userAgent now).1.canAccess = false →
      (generateSecureDownloadUrl env fileId sessionToken options now
        secret).1
        = ⟨false, none,
            some ((jsStr (checkFileAccess env fileId (some sessionToken)
              options.ipAddress options.userAgent now).1.reason).getD
              "Access denied")⟩)
    ∧ ((checkFileAccess env fileId (some sessionToken) options.ipAddress
        options.userAgent now).1.canAccess = true →
        env.verifySessionFn sessionToken = none →
      (generateSecureDownloadUrl env fileId sessionToken options now
        secret).1 = ⟨false, none, some "Invalid session"⟩)
    ∧ (∀ user, (checkFileAccess env fileId (some sessionToken)
        options.ipAddress options.userAgent now).1.canAccess = true →
        env.verifySessionFn sessionToken = some user →
      (generateSecureDownloadUrl env fileId sessionToken options now
        secret).1
        = ⟨true,
            some (generateSignedUrl ⟨fileId, user.id, options.expiresIn,
              options.action, options.ipAddress, options.userAgent⟩ now
              secret), none⟩) := by
  refine ⟨?_, ?_, ?_⟩
  · intro h
    simp [generateSecureDownloadUrl, h]
  · intro h hv
    simp [generateSecureDownloadUrl, h, hv]
  · intro user h hv
    simp [generateSecureDownloadUrl, h, hv]

/-- Witness for C6: the owner's session on the private file yields a
minted signed URL for the owner. -/
theorem C6_orchestration_witness :
    (generateSecureDownloadUrl envPriv "f" "s" ⟨none, none, none, none⟩ 0
        "sec").1
      = ⟨true,
          some (generateSignedUrl ⟨"f", "owner", none, none, none, none⟩ 0
            "sec"), none⟩ :=
  (C6_orchestration envPriv "f" "s" ⟨none, none, none, none⟩ 0 "sec").2.2
    ⟨"owner"⟩ (by decide) rfl

/-- C7: with `maxAttempts = 3`, four calls for one identifier within a
single window are allowed with remaining 2, 1, 0 and then denied with
remaining 0 without incrementing the counter; a call after the window's
reset time starts a fresh window with count 1 and is allowed. -/
theorem C7_rate_limit_scenario (t1 t2 t3 t4 t5 w : Int)
    (h2 : t2 ≤ t1 + w * 60 * 1000) (h3 : t3 ≤ t1 + w * 60 * 1000)
    (h4 : t4 ≤ t1 + w * 60 * 1000) (h5 : t1 + w * 60 * 1000 < t5) :
    checkRateLimit none t1 3 w
      = (⟨true, 2, t1 + w * 60 * 1000⟩, ⟨1, t1 + w * 60 * 1000⟩)
    ∧ checkRateLimit (some ⟨1, t1 + w * 60 * 1000⟩) t2 3 w
      = (⟨true, 1, t1 + w * 60 * 1000⟩, ⟨2, t1 + w * 60 * 1000⟩)
    ∧ checkRateLimit (some ⟨2, t1 + w * 60 * 1000⟩) t3 3 w
      = (⟨true, 0, t1 + w * 60 * 1000⟩, ⟨3, t1 + w * 60 * 1000⟩)
    ∧ checkRateLimit (some ⟨3, t1 + w * 60 * 1000⟩) t4 3 w
      = (⟨false, 0, t1 + w * 60 * 1000⟩, ⟨3, t1 + w * 60 * 1000⟩)
    ∧ checkRateLimit (some ⟨3, t1 + w * 60 * 1000⟩) t5 3 w
      = (⟨true, 2, t5 + w * 60 * 1000⟩, ⟨1, t5 + w * 60 * 1000⟩) := by
  have n2 : ¬ (t1 + w * 60 * 1000 < t2) := by omega
  have n3 : ¬ (t1 + w * 60 * 1000 < t3) := by omega
  have n4 : ¬ (t1 + w * 60 * 1000 < t4) := by omega
  refine ⟨?_, ?_, ?_, ?_, ?_⟩
  · norm_num [checkRateLimit]
  · norm_num [checkRateLimit, n2]
  · norm_num [checkRateLimit, n3]
  · norm_num [checkRateLimit, n4]
  · norm_num [checkRateLimit, h5]

/-- Witness for C7: the concrete 15-minute window starting at time 0 with
calls at times 0 and a fifth call just past the reset instant. -/
theorem C7_rate_limit_scenario_witness :
    checkRateLimit none 0 3 15 = (⟨true, 2, 900000⟩, ⟨1, 900000⟩)
    ∧ checkRateLimit (some ⟨1, 900000⟩) 0 3 15
      = (⟨true, 1, 900000⟩, ⟨2, 900000⟩)
    ∧ checkRateLimit (some ⟨2, 900000⟩) 0 3 15
      = (⟨true, 0, 900000⟩, ⟨3, 900000⟩)
    ∧ checkRateLimit (some ⟨3, 900000⟩) 0 3 15
      = (⟨false, 0, 900000⟩, ⟨3, 900000⟩)
    ∧ checkRateLimit (some ⟨3, 900000⟩) 900001 3 15
      = (⟨true, 2, 900001 + 900000⟩, ⟨1, 900001 + 900000⟩) :=
  C7_rate_limit_scenario 0 0 0 0 900001 15 (by decide) (by decide)
    (by decide) (by decide)

/-- Unique-IP count as the spec's words describe it: distinct, non-empty
and not the literal string `"unknown"`.  Stated only for comparison with
the source's `detectSuspiciousActivity`, which does not exclude
`"unknown"`. -/
def specUniqueIpCount (logs : List LogEntryData) : Nat :=
  ((logs.filterMap (fun l => jsStr l.ip_address)).filter
    (fun s => s ≠ "unknown")).dedup.length

/-- Counterexample for C8: a single entry whose IP is the literal string
`"unknown"` is counted by the code as one unique IP, while the claim's
non-`"unknown"` count is zero. -/
theorem C8_unknown_ip_counterexample :
    (detectSuspiciousActivity
        (Except.ok [⟨"f", none, some "unknown", none, "access_check", true,
          none⟩]) 24).uniqueIPs
      ≠ specUniqueIpCount
          [⟨"f", none, some "unknown", none, "access_check", true, none⟩] := by
  decide

/-- C8 (amended): over the fetched log entries, `detectSuspiciousActivity`
returns `accessCount` equal to the total number of entries and `uniqueIPs`
equal to the number of distinct non-empty IP addresses (the literal
`"unknown"` counts like any other value); its four reasons fire
independently — total count > 100, unique IPs > 20, failed count > 20,
and failure ratio > 0.5 with total count > 10 — the number of reasons
being the number of fired conditions, and `isSuspicious` is true iff at
least one fired. -/
theorem C8_detection_thresholds (logs : List LogEntryData) (h : Int) :
    (detectSuspiciousActivity (Except.ok logs) h).accessCount = logs.length
    ∧ (detectSuspiciousActivity (Except.ok logs) h).uniqueIPs
        = (logs.filterMap (fun l => jsStr l.ip_address)).dedup.length
    ∧ (detectSuspiciousActivity (Except.ok logs) h).reasons.length
        = (if 100 < logs.length then 1 else 0)
          + (if 20 < (logs.filterMap
              (fun l => jsStr l.ip_address)).dedup.length then 1 else 0)
          + (if 20 < (logs.filter (fun l => l.success = false)).length
              then 1 else 0)
          + (if logs.length
                < 2 * (logs.filter (fun l => l.success = false)).length
              ∧ 10 < logs.length then 1 else 0)
    ∧ ((detectSuspiciousActivity (Except.ok logs) h).isSuspicious = true
        ↔ 100 < logs.length
          ∨ 20 < (logs.filterMap
              (fun l => jsStr l.ip_address)).dedup.length
          ∨ 20 < (logs.filter (fun l => l.success = false)).length
          ∨ (logs.length
                < 2 * (logs.filter (fun l => l.success = false)).length
              ∧ 10 < logs.length)) := by
  refine ⟨rfl, rfl, ?_, ?_⟩
  · simp only [detectSuspiciousActivity]
    split_ifs <;> simp
  · simp only [detectSuspiciousActivity]
    split_ifs <;> simp_all

/-- Witness for C8: twenty-one failed entries out of twenty-one are
flagged suspicious, while one failure out of one entry is not. -/
theorem C8_detection_thresholds_witness :
    (detectSuspiciousActivity
        (Except.ok (List.replicate 21
          (⟨"f", none, none, none, "access_check", false, none⟩ :
            LogEntryData))) 24).isSuspicious = true
    ∧ (detectSuspiciousActivity
        (Except.ok [(⟨"f", none, none, none, "access_check", false, none⟩ :
          LogEntryData)]) 24).isSuspicious = false := by
  constructor
  · exact (C8_detection_thresholds (List.replicate 21
      ⟨"f", none, none, none, "access_check", false, none⟩) 24).2.2.2.mpr
      (by decide)
  · have hiff := (C8_detection_thresholds
      [⟨"f", none, none, none, "access_check", false, none⟩] 24).2.2.2
    simp only [show ((100 : Nat) <
        ([(⟨"f", none, none, none, "access_check", false, none⟩ :
          LogEntryData)]).length) = False by decide] at hiff
    revert hiff
    decide

/-- C9: `revokeFileAccess` requested for a missing file or by a non-owner
is denied and issues no token update to storage, leaving the file's
access token unchanged; requested by the owner it issues exactly the
rotation of the file's access token to the freshly drawn value, which
differs from the previous token whenever the fresh draw does. -/
theorem C9_revoke_ownership (env : Env) (fileId userId freshToken : String) :
    (env.getFileById fileId = none →
      (revokeFileAccess env fileId userId freshToken).1
        = ⟨false, none, some "File not found"⟩
      ∧ (revokeFileAccess env fileId userId freshToken).2.1 = [])
    ∧ (∀ f, env.getFileById fileId = some f → f.user_id ≠ userId →
      (revokeFileAccess env fileId userId freshToken).1
        = ⟨false, none,
            some "Access denied - you are not the owner of this file"⟩
      ∧ (revokeFileAccess env fileId userId freshToken).2.1 = [])
    ∧ (∀ f, env.getFileById fileId = some f → f.user_id = userId →
      (revokeFileAccess env fileId userId freshToken).1
        = ⟨true, some freshToken, none⟩
      ∧ (revokeFileAccess env fileId userId freshToken).2.1
          = [(fileId, freshToken)]
      ∧ (freshToken ≠ f.access_token →
          (revokeFileAccess env fileId userId freshToken).1.newAccessToken
            ≠ some f.access_token)) := by
  refine ⟨?_, ?_, ?_⟩
  · intro h
    simp [revokeFileAccess, h]
  · intro f hf hne
    simp [revokeFileAccess, hf, hne]
  · intro f hf he
    refine ⟨by simp [revokeFileAccess, hf, he],
      by simp [revokeFileAccess, hf, he], ?_⟩
    intro hfresh
    simp [revokeFileAccess, hf, he, hfresh]

/-- Witness for C9: a stranger's revocation of `privFile` issues no
update, while the owner's revocation rotates the token to the fresh value
`"new"`, which differs from the stored `"tok0"`. -/
theorem C9_revoke_ownership_witness :
    (revokeFileAccess envPriv "f" "mallory" "new").2.1 = []
    ∧ (revokeFileAccess envPriv "f" "owner" "new").1
        = ⟨true, some "new", none⟩
    ∧ (revokeFileAccess envPriv "f" "owner" "new").1.newAccessToken
        ≠ some privFile.access_token :=
  ⟨((C9_revoke_ownership envPriv "f" "mallory" "new").2.1 privFile rfl
      (by decide)).2,
   ((C9_revoke_ownership envPriv "f" "owner" "new").2.2 privFile rfl
      rfl).1,
   ((C9_revoke_ownership envPriv "f" "owner" "new").2.2 privFile rfl
      rfl).2.2 (by decide)⟩

/-- C10: when the storage read of the access-log entries fails,
`detectSuspiciousActivity` swallows the error and returns the fail-open
report: not suspicious, no reasons, zero counts. -/
theorem C10_detector_fails_open (msg : String) (h : Int) :
    detectSuspiciousActivity (Except.error msg) h = ⟨false, [], 0, 0⟩ :=
  rfl

end SnapVault
